import Mathlib

/-!
Verification development for the EduSense feedback-analysis server
(Backend/server.js).  JavaScript strings are modelled as `List Char`;
the handlers of the Express server are modelled as pure functions over
an explicit server state, with the external processes (the Python
splitter and analyzer, and the LLM API) represented by outcome
parameters.  All definitions are transcribed from the source file;
the one exception, the behaviour of the external splitting process,
is modelled from the specification and marked as such.
-/

/-- JavaScript strings, modelled as lists of characters. -/
abbrev JSStr := List Char

/-- Removal of the first occurrence of `pat`, the semantics of the
JavaScript call `s.replace(pat, '')` with a string pattern
(`String.prototype.replace` with a string argument replaces only the
first occurrence).  If `pat` does not occur, `s` is returned unchanged. -/
def removeFirstOcc (pat : JSStr) : JSStr → JSStr
  | [] => []
  | c :: rest =>
    if pat.isPrefixOf (c :: rest) then (c :: rest).drop pat.length
    else c :: removeFirstOcc pat rest

/-- Substring test, the semantics of JavaScript `s.includes(pat)`. -/
def containsSub (pat : JSStr) : JSStr → Bool
  | [] => pat.isPrefixOf []
  | c :: rest => pat.isPrefixOf (c :: rest) || containsSub pat rest

/-- The normalization applied by the splitting process to instructor
names: spaces become underscores (the source of the file names). -/
def normSpaces (s : JSStr) : JSStr :=
  s.map fun c => if c = ' ' then '_' else c

/-- The display-name recovery in the upload handlers, the semantics of
the JavaScript `baseName.replace(/_/g, ' ')` (a global regex replaces
every occurrence): underscores become spaces. -/
def underscoresToSpaces (s : JSStr) : JSStr :=
  s.map fun c => if c = '_' then ' ' else c

/-- Lexicographic comparison of strings by code point, the default
comparator of JavaScript `Array.prototype.sort` for strings. -/
def lexLe : JSStr → JSStr → Bool
  | [], _ => true
  | _ :: _, [] => false
  | a :: as, b :: bs => if a < b then true else if b < a then false else lexLe as bs

/-- The sorting order used to model `Array.prototype.sort()`. -/
def lexRel (a b : JSStr) : Prop := lexLe a b = true

instance : DecidableRel lexRel := fun a b => inferInstanceAs (Decidable (lexLe a b = true))

/-- Join a list of strings with a separator, the semantics of
JavaScript `Array.prototype.join(sep)`. -/
def joinSep (sep : JSStr) : List JSStr → JSStr
  | [] => []
  | [s] => s
  | s :: rest => s ++ sep ++ joinSep sep rest

/-- Repetition of a single character, modelling `'='.repeat(n)`. -/
def repeatChar (c : Char) (n : Nat) : JSStr := List.replicate n c

/-- Rendering of a possibly-absent number inside a template literal:
JavaScript renders `undefined` as the text "undefined".  Numeric
fields are modelled as integers; only their presence matters for the
claims under verification. -/
def renderOptInt : Option Int → JSStr
  | some n => (toString n).toList
  | none => "undefined".toList

/-- Rendering of a list with 1-based indices, modelling the
`forEach((x, i) => out += (i+1) + '. ' + x + '\n')` loops. -/
def numberedFrom (i : Nat) : List JSStr → JSStr
  | [] => []
  | x :: rest => (toString i).toList ++ ". ".toList ++ x ++ "\n".toList ++ numberedFrom (i + 1) rest

/-- Splitting a relative path on the slash character. -/
def splitSegs : JSStr → List JSStr
  | [] => [[]]
  | c :: rest =>
    if c = '/' then [] :: splitSegs rest
    else
      match splitSegs rest with
      | s :: ss => (c :: s) :: ss
      | [] => [[c]]

/-- Path normalization as performed by Node `path.join`: empty and
`.` segments are dropped, a `..` segment removes the preceding
segment.  Paths are modelled as segment lists; ascending above the
root is not modelled (the directories in play are two levels deep). -/
def normalizeSegs (segs : List JSStr) : List JSStr :=
  segs.foldl
    (fun acc seg =>
      if seg = [] then acc
      else if seg = ".".toList then acc
      else if seg = "..".toList then acc.dropLast
      else acc ++ [seg])
    []

/-- Node `path.join(base, rel)`: concatenation followed by
normalization.  This is the joining performed by the
analyze-instructor handler on the client-supplied filename. -/
def pathJoin (base : List JSStr) (rel : JSStr) : List JSStr :=
  normalizeSegs (base ++ splitSegs rel)

/-- Node `path.extname`: the extension of the basename from its last
dot, empty when the basename has no dot or its only relevant dot is
the leading character. -/
def extname (s : JSStr) : JSStr :=
  let b := (splitSegs s).getLastD []
  let n := b.length
  let k := (b.reverse.takeWhile fun c => c ≠ '.').length
  if k = n then []
  else if k = n - 1 then []
  else b.drop (n - 1 - k)

/-- The fixed filename suffix of per-instructor CSV files. -/
def suffixFC : JSStr := "_feedback.csv".toList

/-- The base name derived from an instructor file name in both upload
handlers: `file.replace('_feedback.csv', '')`. -/
def baseOf (f : JSStr) : JSStr := removeFirstOcc suffixFC f

/-- One entry of the instructor list returned by the upload endpoint. -/
structure InstructorEntry where
  id : JSStr
  name : JSStr
  filename : JSStr
deriving DecidableEq, Repr

/-- The `(id, name, filename)` record derived from a directory file
name, common to both upload handlers. -/
def mkEntry (f : JSStr) : InstructorEntry :=
  { id := baseOf f, name := underscoresToSpaces (baseOf f), filename := f }

/-- Instructor-list construction of the first registered upload
handler: every file of the listing with the fixed suffix is mapped to
its record, in listing order, with no sorting and no deduplication. -/
def instructorsFromDirFirst (listing : List JSStr) : List InstructorEntry :=
  (listing.filter fun f => suffixFC.isSuffixOf f).map mkEntry

/-- One step of the `Map`-based accumulation of the second registered
upload handler: a file is recorded only when its base name is not
already a key (JavaScript `Map` preserves insertion order and
`map.has` guards the insertion). -/
def insertInstructor (acc : List InstructorEntry) (f : JSStr) : List InstructorEntry :=
  if acc.any (fun e => e.id == baseOf f) then acc else acc ++ [mkEntry f]

/-- Instructor-list construction of the second registered upload
handler: filter by the fixed suffix, sort (JavaScript `sort()`,
modelled by a stable sort under the default lexicographic string
comparator), then deduplicate by base name with the first occurrence
winning. -/
def instructorsFromDirSecond (listing : List JSStr) : List InstructorEntry :=
  (List.insertionSort lexRel (listing.filter fun f => suffixFC.isSuffixOf f)).foldl
    insertInstructor []

/-- Modelled from the spec: the external splitting process
(`extract_instructor_data.py`, not part of the repository) partitions
rows by the Instructor column and writes one output CSV per distinct
instructor, naming each file after the instructor with spaces
replaced by underscores plus the fixed suffix.  Given the column
values, the files written are one per distinct normalized name. -/
def splitFiles (vals : List JSStr) : List JSStr :=
  ((vals.map normSpaces).dedup).map fun b => b ++ suffixFC

/-- The instructor-data directory listing after an upload: the files
already present before the request, together with the files written
by the splitting process (writing an existing file overwrites it; the
listing order of `readdirSync` is not specified, and no claim below
depends on the chosen interleaving). -/
def dirAfterUpload (pre : List JSStr) (vals : List JSStr) : List JSStr :=
  pre ++ (splitFiles vals).filter fun f => ¬ f ∈ pre

/-- The server directory (`__dirname`), as a segment path. -/
def serverDir : List JSStr := ["Backend".toList]

/-- The instructor-data directory created at startup. -/
def instructorDataDir : List JSStr := serverDir ++ ["instructor_data".toList]

/-- Path of the analysis collaborator script checked by the
analyze-instructor handler. -/
def analyzeScriptPath : List JSStr := serverDir ++ ["analyze.py".toList]

/-- Path of the splitting collaborator script checked by the upload
handlers. -/
def extractScriptPath : List JSStr := serverDir ++ ["extract_instructor_data.py".toList]

/-- Server state: the runtime command cached by the startup version
probe (`PYTHON_CMD`, null when no candidate answered), and the set of
files present on disk, as absolute segment paths. -/
structure ServerState where
  pythonCmd : Option JSStr
  files : List (List JSStr)
deriving DecidableEq

/-- Flat JSON values, sufficient for the error-field dispatch of the
analyze-instructor handler. -/
inductive JVal where
  | vnull
  | vbool (b : Bool)
  | vnum (n : Int)
  | vstr (s : JSStr)
deriving DecidableEq, Repr

/-- A parsed JSON object, as an association list of fields. -/
abbrev JsonObj := List (JSStr × JVal)

/-- JavaScript truthiness of a JSON value. -/
def jvalTruthy : JVal → Bool
  | .vnull => false
  | .vbool b => b
  | .vnum n => n != 0
  | .vstr s => s != []

/-- Field lookup on a parsed JSON object. -/
def lookupField (o : JsonObj) (k : JSStr) : Option JVal :=
  (o.find? fun kv => kv.1 == k).map fun kv => kv.2

/-- Truthiness of a possibly-absent field (an absent field reads as
`undefined`, which is falsy). -/
def truthyOpt : Option JVal → Bool
  | none => false
  | some v => jvalTruthy v

/-- Rendering of a JSON value into an error text. -/
def renderJVal : JVal → JSStr
  | .vnull => "null".toList
  | .vbool b => (if b then "true" else "false").toList
  | .vnum n => (toString n).toList
  | .vstr s => s

/-- Outcome of one run of the analysis process.  Exit code 0 carries
the result of `JSON.parse` on the captured stdout (parsing itself is
external to the model; `none` is a parse failure).  A non-zero exit
carries the exit code, both captured streams, and the parse result of
the stdout text, used by the error-recovery path. -/
inductive ProcOutcome where
  | exit0 (parsed : Option JsonObj)
  | exitNonzero (code : Int) (stderrS stdoutS : JSStr) (stdoutParsed : Option JsonObj)
  | spawnError (errText : JSStr)
deriving DecidableEq

/-- Responses of the analyze-instructor endpoint, one constructor per
`res.status(...).json(...)` site of the handler. -/
inductive AnalyzeResp where
  | missingFilename
  | pythonMissing
  | notFound
  | scriptMissing
  | clientError (errVal : JVal)
  | ok (data : JsonObj) (filename : JSStr)
  | failed (errMsg : JSStr) (stderrS stdoutS : Option JSStr)
deriving DecidableEq

/-- HTTP status of each analyze-instructor response. -/
def AnalyzeResp.status : AnalyzeResp → Nat
  | .missingFilename => 400
  | .pythonMissing => 500
  | .notFound => 404
  | .scriptMissing => 500
  | .clientError _ => 400
  | .ok _ _ => 200
  | .failed _ _ _ => 500

/-- The `success` flag of each analyze-instructor response body. -/
def AnalyzeResp.succ : AnalyzeResp → Bool
  | .ok _ _ => true
  | _ => false

/-- The `error` field of each analyze-instructor response body. -/
def AnalyzeResp.errMsg : AnalyzeResp → Option JSStr
  | .missingFilename => some "Filename is required".toList
  | .pythonMissing => some "Python is not installed or not found in PATH.".toList
  | .notFound => some "Instructor file not found".toList
  | .scriptMissing => some "analyze.py not found in server directory.".toList
  | .clientError v => some (renderJVal v)
  | .ok _ _ => none
  | .failed m _ _ => some m

/-- Post-run response construction of the analyze-instructor handler:
the try block parses stdout and dispatches on a truthy `error` field;
the catch block recovers a structured error from the output of a
failed run before falling back to raw text. -/
def processOutcome : ProcOutcome → JSStr → AnalyzeResp
  | .exit0 none, _ => .failed "Analysis failed".toList none none
  | .exit0 (some o), fn =>
    match lookupField o "error".toList with
    | some v => if jvalTruthy v then .clientError v else .ok o fn
    | none => .ok o fn
  | .exitNonzero _ stderrS stdoutS stdoutParsed, _ =>
    if containsSub "ModuleNotFoundError".toList stderrS then
      .failed "Python dependencies missing. Run: pip install transformers torch pandas".toList
        (some stderrS) (some stdoutS)
    else if stdoutS ≠ [] then
      match stdoutParsed with
      | some o =>
        match lookupField o "error".toList with
        | some v =>
          if jvalTruthy v then .failed (renderJVal v) (some stderrS) (some stdoutS)
          else .failed "Analysis failed".toList (some stderrS) (some stdoutS)
        | none => .failed "Analysis failed".toList (some stderrS) (some stdoutS)
      | none => .failed stdoutS (some stderrS) (some stdoutS)
    else
      .failed "Analysis failed".toList (some stderrS) (some stdoutS)
  | .spawnError _, _ => .failed "Analysis failed".toList none none

/-- Result of one analyze-instructor request: the response, and the
path argument of the analysis process when one was spawned. -/
structure AnalyzeResult where
  resp : AnalyzeResp
  spawnedOn : Option (List JSStr)
deriving DecidableEq

/-- The analyze-instructor handler.  Guards in source order: falsy
filename, null runtime command, absence of the joined instructor file
path, absence of the analysis script; only then is the process
spawned on the joined path. -/
def analyzeInstructor (st : ServerState) (filename : JSStr) (outcome : ProcOutcome) :
    AnalyzeResult :=
  if filename = [] then ⟨.missingFilename, none⟩
  else
    match st.pythonCmd with
    | none => ⟨.pythonMissing, none⟩
    | some _ =>
      let p := pathJoin instructorDataDir filename
      if p ∈ st.files then
        if analyzeScriptPath ∈ st.files then ⟨processOutcome outcome filename, some p⟩
        else ⟨.scriptMissing, none⟩
      else ⟨.notFound, none⟩

/-- An uploaded file part as seen by the multer file filter. -/
structure FilePart where
  mimetype : JSStr
  originalname : JSStr
deriving DecidableEq

/-- The multer file filter: accept when the MIME type is `text/csv`
or the extension of the original name is `.csv`. -/
def fileFilterAccepts (f : FilePart) : Bool :=
  f.mimetype == "text/csv".toList || extname f.originalname == ".csv".toList

/-- Outcome of one run of the splitting process.  Success carries the
instructor-data directory listing read by the handler afterwards. -/
inductive SplitOutcome where
  | ok (listing : List JSStr)
  | procFail (code : Int) (stderrS stdoutS : JSStr)
  | spawnErr (errText : JSStr)
deriving DecidableEq

/-- Responses of the upload endpoint, one constructor per response
site.  A file rejected by the multer filter surfaces through the
error middleware: the filter error is not a `MulterError`, so the
generic branch answers with status 500. -/
inductive UploadResp where
  | typeRejected
  | noFile
  | pythonMissing
  | extractMissing
  | noInstructors
  | ok (instructors : List InstructorEntry)
  | splitFailed (errMsg : JSStr)
deriving DecidableEq

/-- HTTP status of each upload response. -/
def UploadResp.status : UploadResp → Nat
  | .typeRejected => 500
  | .noFile => 400
  | .pythonMissing => 500
  | .extractMissing => 500
  | .noInstructors => 400
  | .ok _ => 200
  | .splitFailed _ => 500

/-- The `error` field of each upload response body. -/
def UploadResp.errMsg : UploadResp → Option JSStr
  | .typeRejected => some "Only CSV files are allowed!".toList
  | .noFile => some "No file uploaded".toList
  | .pythonMissing => some "Python is not installed or not found in PATH.".toList
  | .extractMissing => some "extract_instructor_data.py not found in server directory.".toList
  | .noInstructors => some "No instructor data found. Make sure CSV has \"Instructor\" column.".toList
  | .ok _ => none
  | .splitFailed m => some m

/-- Result of one upload request: the response and whether the
splitting process was invoked. -/
structure UploadResult where
  resp : UploadResp
  splitterInvoked : Bool
deriving DecidableEq

/-- The error text of a failed split:
`'Failed to split CSV by instructor: ' + (err.stderr || err.error || 'Unknown error')`. -/
def splitFailMsg (detail : JSStr) : JSStr :=
  "Failed to split CSV by instructor: ".toList ++
    (if detail ≠ [] then detail else "Unknown error".toList)

/-- The upload endpoint, parametrized by the instructor-list
construction (the two registrations share every guard and differ only
there).  Guards in source order: missing file (the multer filter ran
first when a file is present), null runtime command, missing
splitting script; then the splitting process runs, the listing is
filtered by the fixed suffix, an empty result is the
no-instructor-data client error, and otherwise the instructor list is
returned. -/
def uploadEndpointWith (fromDir : List JSStr → List InstructorEntry) (st : ServerState)
    (file : Option FilePart) (split : SplitOutcome) : UploadResult :=
  match file with
  | none => ⟨.noFile, false⟩
  | some f =>
    if fileFilterAccepts f then
      match st.pythonCmd with
      | none => ⟨.pythonMissing, false⟩
      | some _ =>
        if extractScriptPath ∈ st.files then
          match split with
          | .ok listing =>
            if listing.filter (fun g => suffixFC.isSuffixOf g) = [] then ⟨.noInstructors, true⟩
            else ⟨.ok (fromDir listing), true⟩
          | .procFail _ stderrS _ => ⟨.splitFailed (splitFailMsg stderrS), true⟩
          | .spawnErr errText => ⟨.splitFailed (splitFailMsg errText), true⟩
        else ⟨.extractMissing, false⟩
    else ⟨.typeRejected, false⟩

/-- The first registered upload handler (the registration that
Express dispatches to). -/
def uploadEndpointFirst : ServerState → Option FilePart → SplitOutcome → UploadResult :=
  uploadEndpointWith instructorsFromDirFirst

/-- The second registered upload handler (the replacement that the
source comment directs to install in place of the first). -/
def uploadEndpointSecond : ServerState → Option FilePart → SplitOutcome → UploadResult :=
  uploadEndpointWith instructorsFromDirSecond

/-- The health-check response body. -/
structure HealthResp where
  statusText : JSStr
  python_available : Bool
  python_version : JSStr
deriving DecidableEq

/-- The health endpoint: with a null cached runtime command it
reports unavailability directly; otherwise it re-probes the version
and reports availability as exit code 0 of the probe. -/
def healthCheck (st : ServerState) (probeCode : Int) (probeOut : JSStr) : HealthResp :=
  match st.pythonCmd with
  | none =>
    { statusText := "warning".toList
      python_available := false
      python_version := "Not found".toList }
  | some _ =>
    { statusText := "ok".toList
      python_available := probeCode = 0
      python_version := probeOut }

/-- The summary object of an analysis result, as consumed by the
report, CSV and chat endpoints.  Every field may be absent; numeric
fields are modelled as integers (only presence matters for the
claims under verification). -/
structure Summary where
  total_responses : Option Int
  average_rating : Option Int
  avg_sentiment_percentage : Option Int
  key_themes_count : Option Int
  top_praise_areas : Option (List JSStr)
  improvement_areas : Option (List JSStr)
  recommendations : Option (List JSStr)
deriving DecidableEq

/-- The summary object with every field absent (an empty JSON
object). -/
def emptySummary : Summary :=
  { total_responses := none
    average_rating := none
    avg_sentiment_percentage := none
    key_themes_count := none
    top_praise_areas := none
    improvement_areas := none
    recommendations := none }

/-- One row of the per-response analysis, as rendered into the CSV
export. -/
structure AnalysisRow where
  student_id : JSStr
  course : JSStr
  instructor : JSStr
  rating : Int
  sentiment : JSStr
  category : JSStr
  feedback_text : JSStr
deriving DecidableEq

/-- The analysis-result object held by the client and posted back to
the export and chat endpoints. -/
structure AnalysisData where
  summary : Option Summary
  individual_analysis : Option (List AnalysisRow)
deriving DecidableEq

/-- Runtime errors thrown by handler code. -/
inductive JsError where
  | referenceError (ident : JSStr)
  | typeError (detail : JSStr)
deriving DecidableEq

/-- Dashes separator line of the text report. -/
def dashes : JSStr := repeatChar '-' 50

/-- The download-report handler.  It renders the header
unconditionally; when `data.summary` is present it renders the four
summary fields through template literals (an absent field renders as
the text "undefined") and then iterates `top_praise_areas` and
`improvement_areas` and `recommendations` with `forEach` — which
throws a TypeError when the field is absent.  The `Generated` line
depends on the clock, passed in as `now`. -/
def downloadReport (data : Option AnalysisData) (instructor : Option JSStr) (now : JSStr) :
    Except JsError JSStr :=
  let header :=
    "EDUSENSE - FEEDBACK ANALYSIS REPORT\n".toList ++ repeatChar '=' 50 ++ "\n\n".toList ++
    "Instructor: ".toList ++ (instructor.getD "All".toList) ++ "\n".toList ++
    "Generated: ".toList ++ now ++ "\n\n".toList
  match data with
  | none => .ok header
  | some d =>
    match d.summary with
    | none => .ok header
    | some s =>
      let part1 := header ++ "SUMMARY\n".toList ++ dashes ++ "\n".toList ++
        "Total Responses: ".toList ++ renderOptInt s.total_responses ++ "\n".toList ++
        "Average Rating: ".toList ++ renderOptInt s.average_rating ++ "\n".toList ++
        "Positive Sentiment: ".toList ++ renderOptInt s.avg_sentiment_percentage ++ "%\n".toList ++
        "Key Themes: ".toList ++ renderOptInt s.key_themes_count ++ "\n\n".toList
      match s.top_praise_areas with
      | none => .error (.typeError "top_praise_areas of undefined".toList)
      | some praise =>
        let part2 := part1 ++ "TOP PRAISE AREAS\n".toList ++ dashes ++ "\n".toList ++
          numberedFrom 1 praise
        match s.improvement_areas with
        | none => .error (.typeError "improvement_areas of undefined".toList)
        | some improv =>
          let part3 := part2 ++ "\nAREAS FOR IMPROVEMENT\n".toList ++ dashes ++ "\n".toList ++
            numberedFrom 1 improv
          match s.recommendations with
          | none => .error (.typeError "recommendations of undefined".toList)
          | some recs =>
            .ok (part3 ++ "\nRECOMMENDATIONS\n".toList ++ dashes ++ "\n".toList ++
              numberedFrom 1 recs)

/-- Doubling of double quotes, the semantics of
`feedback_text.replace(/"/g, '""')`. -/
def escapeQuotes (s : JSStr) : JSStr :=
  s.flatMap fun c => if c = '"' then ['"', '"'] else [c]

/-- One CSV row of the export: the seven fields joined by commas,
with the feedback text quoted and its quotes doubled. -/
def csvRow (r : AnalysisRow) : JSStr :=
  joinSep ",".toList
    [r.student_id, r.course, r.instructor, (toString r.rating).toList, r.sentiment,
     r.category, "\"".toList ++ escapeQuotes r.feedback_text ++ "\"".toList] ++ "\n".toList

/-- Responses of the download-csv endpoint. -/
inductive CsvResp where
  | badRequest
  | file (content : JSStr)
deriving DecidableEq

/-- HTTP status of each download-csv response. -/
def CsvResp.status : CsvResp → Nat
  | .badRequest => 400
  | .file _ => 200

/-- The download-csv handler.  A missing `data` or missing
`individual_analysis` is answered with a 400; otherwise the rows are
rendered, and the summary section reads `data.summary.total_responses`
and three more fields — a TypeError when `data.summary` is absent, the
text "undefined" for each absent field when the summary object is
present but empty. -/
def downloadCsv (data : Option AnalysisData) : Except JsError CsvResp :=
  match data with
  | none => .ok .badRequest
  | some d =>
    match d.individual_analysis with
    | none => .ok .badRequest
    | some rows =>
      let body := "Student ID,Course,Instructor,Rating,Sentiment,Category,Feedback\n".toList ++
        (rows.map csvRow).flatten
      match d.summary with
      | none => .error (.typeError "total_responses of undefined".toList)
      | some s =>
        .ok (.file (body ++ "\n\nSUMMARY\n".toList ++
          "Total Responses,".toList ++ renderOptInt s.total_responses ++ "\n".toList ++
          "Average Rating,".toList ++ renderOptInt s.average_rating ++ "\n".toList ++
          "Positive Sentiment %,".toList ++ renderOptInt s.avg_sentiment_percentage ++ "\n".toList ++
          "Key Themes,".toList ++ renderOptInt s.key_themes_count ++ "\n".toList))

/-- ASCII lowercasing, the semantics of `toLowerCase` on the
messages in play. -/
def toLowerJS (s : JSStr) : JSStr := s.map Char.toLower

/-- The head element of a possibly-absent array with a default:
`xs?.[0] || dflt`. -/
def headOr (xs : Option (List JSStr)) (dflt : JSStr) : JSStr :=
  ((xs.bind List.head?).getD dflt)

/-- Canned response keyed `teaching style`. -/
def fbTeaching (s : Summary) : JSStr :=
  "Based on the feedback, students appreciate ".toList ++
  headOr s.top_praise_areas "your teaching approach".toList ++
  ". Consider focusing on ".toList ++
  headOr s.improvement_areas "interactive activities".toList ++
  " to enhance engagement further.".toList

/-- Canned response keyed `improvement`. -/
def fbImprovement (s : Summary) : JSStr :=
  "Key areas for improvement include: ".toList ++
  joinSep ", ".toList ((s.improvement_areas.getD []).take 3) ++
  ". I recommend creating an action plan to address these points systematically.".toList

/-- Canned response keyed `positive`. -/
def fbPositive (s : Summary) : JSStr :=
  "Students particularly praised: ".toList ++
  joinSep ", ".toList ((s.top_praise_areas.getD []).take 3) ++
  ". These are your strengths - continue building on them!".toList

/-- Canned response keyed `rating`. -/
def fbRating (s : Summary) : JSStr :=
  "Your average rating is ".toList ++ renderOptInt s.average_rating ++
  "/5 with ".toList ++ renderOptInt s.avg_sentiment_percentage ++
  "% positive sentiment. ".toList ++
  (if (match s.average_rating with | some n => decide (n ≥ 4) | none => false) then
    "This is excellent!".toList
   else "There is room for improvement in key areas.".toList)

/-- Canned response keyed `default`. -/
def fbDefault (s : Summary) : JSStr :=
  "I can help you understand your feedback better. You have ".toList ++
  renderOptInt s.total_responses ++
  " responses with an average rating of ".toList ++ renderOptInt s.average_rating ++
  "/5. Your strengths include ".toList ++
  headOr s.top_praise_areas "clear teaching".toList ++
  ", and students suggest improving ".toList ++
  headOr s.improvement_areas "course materials".toList ++ ".".toList

/-- Keyword dispatch of the fallback path: the lowercased user text
selects one of the five canned responses. -/
def chatFallbackText (s : Summary) (userText : JSStr) : JSStr :=
  let lower := toLowerJS userText
  if containsSub "teaching".toList lower || containsSub "style".toList lower then fbTeaching s
  else if containsSub "improve".toList lower || containsSub "better".toList lower then
    fbImprovement s
  else if containsSub "positive".toList lower || containsSub "good".toList lower ||
      containsSub "strength".toList lower then fbPositive s
  else if containsSub "rating".toList lower || containsSub "score".toList lower then fbRating s
  else fbDefault s

/-- A chat request body. -/
structure ChatReq where
  userText : Option JSStr
  analysisData : Option AnalysisData
  instructor : Option JSStr
  conversationHistory : Option (List JSStr)
deriving DecidableEq

/-- Outcome of the external LLM call. -/
inductive LlmOutcome where
  | ok (text : JSStr)
  | noContent
  | netError
deriving DecidableEq

/-- A chat response body. -/
structure ChatResp where
  status : Nat
  succ : Bool
  response : JSStr
deriving DecidableEq

/-- The identifiers bound in the scope of the chat handler's catch
block: the destructured request fields and the catch parameter.  The
`const summary` of the try block is block-scoped to the try block and
is not among them. -/
def chatCatchScope : List JSStr :=
  ["message".toList, "analysisData".toList, "instructor".toList,
   "conversationHistory".toList, "err".toList]

/-- The catch block of the chat handler.  Its first statement
constructs `fallbackResponses`, an object literal whose template
values read the identifier `summary`; object literals evaluate their
values eagerly, and resolving `summary` against the catch scope
fails, so the block throws a ReferenceError before any keyword
matching happens. -/
def chatCatchBlock : Except JsError ChatResp :=
  if "summary".toList ∈ chatCatchScope then .ok ⟨200, true, []⟩
  else .error (.referenceError "summary".toList)

/-- The catch block as its surrounding code intends it, with the try
block's `summary` binding visible: a 200 response carrying the
keyword-selected canned text. -/
def chatCatchBlockIntended (s : Summary) (userText : JSStr) : Except JsError ChatResp :=
  .ok ⟨200, true, chatFallbackText s userText⟩

/-- The chat handler.  A falsy message is a 400; otherwise the try
block computes `summary`, slices the conversation history (a
TypeError when absent) and calls the LLM; a reply with content is a
200, and every failure — thrown slice, network failure, or a reply
without content — lands in the catch block. -/
def chatEndpoint (req : ChatReq) (llm : LlmOutcome) : Except JsError ChatResp :=
  match req.userText with
  | none => .ok ⟨400, false, "No message provided".toList⟩
  | some m =>
    if m = [] then .ok ⟨400, false, "No message provided".toList⟩
    else
      match req.conversationHistory with
      | none => chatCatchBlock
      | some _ =>
        match llm with
        | .ok text => .ok ⟨200, true, text⟩
        | .noContent => chatCatchBlock
        | .netError => chatCatchBlock

/-- The chat handler as intended, identical except that the catch
block can read `summary` (the value `analysisData?.summary || ` the
empty object, computed in the try block). -/
def chatEndpointIntended (req : ChatReq) (llm : LlmOutcome) : Except JsError ChatResp :=
  match req.userText with
  | none => .ok ⟨400, false, "No message provided".toList⟩
  | some m =>
    if m = [] then .ok ⟨400, false, "No message provided".toList⟩
    else
      let s := (req.analysisData.bind AnalysisData.summary).getD emptySummary
      match req.conversationHistory with
      | none => chatCatchBlockIntended s m
      | some _ =>
        match llm with
        | .ok text => .ok ⟨200, true, text⟩
        | .noContent => chatCatchBlockIntended s m
        | .netError => chatCatchBlockIntended s m

/-! ### Helper lemmas about the string operations -/

theorem suffixFC_length : suffixFC.length = 13 := by decide

/-- The fixed suffix has no nontrivial border: when it is a prefix of
`s ++ suffixFC`, either `s` is empty (the occurrence is exactly the
appended copy) or the suffix already occurs at the start of `s`. -/
theorem suffixFC_prefix_of_append {s : JSStr} (h : suffixFC <+: s ++ suffixFC) :
    s = [] ∨ suffixFC <+: s := by
  rcases eq_or_ne s [] with hs | hs
  · exact Or.inl hs
  right
  have h1 := List.prefix_iff_eq_take.mp h
  rw [suffixFC_length, List.take_append_eq_append_take] at h1
  rcases Nat.lt_or_ge s.length 13 with hlt | hge
  · exfalso
    rw [List.take_of_length_le (by omega)] at h1
    have hs2 : suffixFC.take s.length = s := by
      conv_lhs => rw [h1]
      rw [List.take_append_eq_append_take, List.take_of_length_le (le_refl _), Nat.sub_self,
        List.take_zero, List.append_nil]
    rw [← hs2] at h1
    have hm1 : 1 ≤ s.length := List.length_pos.mpr hs
    have hm2 : s.length ≤ 12 := by omega
    obtain ⟨m, hme, h1m, h2m⟩ : ∃ m, m = s.length ∧ 1 ≤ m ∧ m ≤ 12 := ⟨s.length, rfl, hm1, hm2⟩
    rw [← hme] at h1
    interval_cases m <;> exact absurd h1 (by decide)
  · rw [Nat.sub_eq_zero_of_le hge, List.take_zero, List.append_nil] at h1
    exact List.prefix_iff_eq_take.mpr (by rw [suffixFC_length]; exact h1)

/-- Base-name computation on a well-formed instructor file name: when
the fixed suffix does not occur inside `b`, removing its first
occurrence from `b ++ suffixFC` recovers `b`. -/
theorem baseOf_append : ∀ (b : JSStr), ¬ suffixFC <:+: b → baseOf (b ++ suffixFC) = b
  | [], _ => by
    show removeFirstOcc suffixFC ([] ++ suffixFC) = []
    rw [List.nil_append]
    decide
  | c :: b', h => by
    have hnp : suffixFC.isPrefixOf ((c :: b') ++ suffixFC) = false := by
      rw [Bool.eq_false_iff]
      intro htrue
      have hp : suffixFC <+: (c :: b') ++ suffixFC := by simpa using htrue
      rcases suffixFC_prefix_of_append hp with h0 | hpre
      · exact absurd h0 (by simp)
      · exact h hpre.isInfix
    have htail : ¬ suffixFC <:+: b' := fun hx =>
      h (hx.trans (List.suffix_cons c b').isInfix)
    show removeFirstOcc suffixFC ((c :: b') ++ suffixFC) = c :: b'
    rw [List.cons_append]
    simp only [removeFirstOcc]
    rw [List.cons_append] at hnp
    rw [hnp]
    simp only [Bool.false_eq_true, if_false]
    exact congrArg (c :: ·) (baseOf_append b' htail)

/-- Every well-formed instructor file name passes the suffix filter. -/
theorem isSuffixOf_append (b : JSStr) : suffixFC.isSuffixOf (b ++ suffixFC) = true := by
  simp [List.isSuffixOf_iff_suffix]

/-- The suffix filter keeps every file written by the splitter. -/
theorem filter_splitFiles (vals : List JSStr) :
    (splitFiles vals).filter (fun f => suffixFC.isSuffixOf f) = splitFiles vals := by
  rw [List.filter_eq_self]
  intro f hf
  obtain ⟨b, _, rfl⟩ := List.mem_map.mp hf
  exact isSuffixOf_append b

/-- The accumulation of the second upload handler over a file list
with pairwise-distinct base names keeps every file, in order. -/
theorem foldl_insertInstructor :
    ∀ (fs : List JSStr) (acc : List InstructorEntry),
      (∀ f ∈ fs, ∀ e ∈ acc, e.id ≠ baseOf f) → (fs.map baseOf).Nodup →
        fs.foldl insertInstructor acc = acc ++ fs.map mkEntry := by
  intro fs
  induction fs with
  | nil => intro acc _ _; simp
  | cons f fs ih =>
    intro acc hdisj hnodup
    have hany : acc.any (fun e => e.id == baseOf f) = false := by
      rw [List.any_eq_false]
      intro e he
      simpa using hdisj f (by simp) e he
    have hstep : insertInstructor acc f = acc ++ [mkEntry f] := by
      simp only [insertInstructor, hany]
      simp
    have hne : baseOf f ∉ fs.map baseOf := by
      have := hnodup
      simp only [List.map_cons, List.nodup_cons] at this
      exact this.1
    have hdisj' : ∀ g ∈ fs, ∀ e ∈ acc ++ [mkEntry f], e.id ≠ baseOf g := by
      intro g hg e he
      rcases List.mem_append.mp he with hea | heb
      · exact hdisj g (List.mem_cons_of_mem _ hg) e hea
      · have : e = mkEntry f := by simpa using heb
        subst this
        show baseOf f ≠ baseOf g
        intro hcontra
        exact hne (hcontra ▸ List.mem_map_of_mem baseOf hg)
      -- the id of `mkEntry f` is `baseOf f`
    have hnodup' : (fs.map baseOf).Nodup := by
      simp only [List.map_cons, List.nodup_cons] at hnodup
      exact hnodup.2
    rw [List.foldl_cons, hstep, ih _ hdisj' hnodup']
    simp

/-- Base names of the files written by the splitter recover the
distinct normalized instructor names, provided no normalized name
contains the fixed suffix. -/
theorem map_baseOf_splitFiles (vals : List JSStr)
    (hclean : ∀ v ∈ vals, ¬ suffixFC <:+: normSpaces v) :
    (splitFiles vals).map baseOf = (vals.map normSpaces).dedup := by
  unfold splitFiles
  rw [List.map_map]
  have : ∀ b ∈ (vals.map normSpaces).dedup, (baseOf ∘ fun b => b ++ suffixFC) b = id b := by
    intro b hb
    obtain ⟨v, hv, rfl⟩ := List.mem_map.mp (List.mem_dedup.mp hb)
    exact baseOf_append _ (hclean v hv)
  rw [List.map_congr_left this, List.map_id]

/-- Claim C1 (amended): starting from an instructor-data directory
that contains exactly the files written by the split of the uploaded
CSV, and with no normalized instructor value containing the fixed
suffix as a substring, the upload endpoint (under either
registration) answers success with exactly one entry per distinct
normalized instructor value, with pairwise-distinct ids, and with
every entry's filename equal to its id concatenated with
`_feedback.csv`. -/
theorem upload_counts_distinct_ids (st : ServerState) (f : FilePart) (vals : List JSStr)
    (hacc : fileFilterAccepts f = true) (hpy : st.pythonCmd.isSome = true)
    (hscript : extractScriptPath ∈ st.files) (hvals : vals ≠ [])
    (hclean : ∀ v ∈ vals, ¬ suffixFC <:+: normSpaces v) :
    ∃ es1 es2,
      uploadEndpointFirst st (some f) (.ok (splitFiles vals)) = ⟨.ok es1, true⟩ ∧
      uploadEndpointSecond st (some f) (.ok (splitFiles vals)) = ⟨.ok es2, true⟩ ∧
      es1.length = ((vals.map normSpaces).dedup).length ∧
      es2.length = ((vals.map normSpaces).dedup).length ∧
      (es1.map InstructorEntry.id).Nodup ∧
      (es2.map InstructorEntry.id).Nodup ∧
      (∀ e ∈ es1, e.filename = e.id ++ suffixFC) ∧
      (∀ e ∈ es2, e.filename = e.id ++ suffixFC) := by
  obtain ⟨cmd, hcmd⟩ := Option.isSome_iff_exists.mp hpy
  have hfilter := filter_splitFiles vals
  have hmapbase := map_baseOf_splitFiles vals hclean
  have hnodupb : ((splitFiles vals).map baseOf).Nodup := by
    rw [hmapbase]; exact List.nodup_dedup _
  have hfne : splitFiles vals ≠ [] := by
    obtain ⟨v, hv⟩ := List.exists_mem_of_ne_nil vals hvals
    have : normSpaces v ∈ (vals.map normSpaces).dedup :=
      List.mem_dedup.mpr (List.mem_map_of_mem _ hv)
    have : normSpaces v ++ suffixFC ∈ splitFiles vals := List.mem_map_of_mem _ this
    exact List.ne_nil_of_mem this
  have hbinf : ∀ b ∈ (vals.map normSpaces).dedup, ¬ suffixFC <:+: b := by
    intro b hb
    obtain ⟨v, hv, rfl⟩ := List.mem_map.mp (List.mem_dedup.mp hb)
    exact hclean v hv
  have hfn : ∀ fl ∈ splitFiles vals, fl = baseOf fl ++ suffixFC := by
    intro fl hfl
    obtain ⟨b, hb, rfl⟩ := List.mem_map.mp hfl
    rw [baseOf_append b (hbinf b hb)]
  have hperm : (List.insertionSort lexRel (splitFiles vals)).Perm (splitFiles vals) :=
    List.perm_insertionSort _ _
  have hnodups : ((List.insertionSort lexRel (splitFiles vals)).map baseOf).Nodup :=
    ((hperm.map baseOf).nodup_iff).mpr hnodupb
  have hsecond : instructorsFromDirSecond (splitFiles vals) =
      (List.insertionSort lexRel (splitFiles vals)).map mkEntry := by
    unfold instructorsFromDirSecond
    rw [hfilter]
    have h0 := foldl_insertInstructor (List.insertionSort lexRel (splitFiles vals)) []
      (by intro g hg e he; simp at he) hnodups
    simpa using h0
  have hfirst : instructorsFromDirFirst (splitFiles vals) = (splitFiles vals).map mkEntry := by
    unfold instructorsFromDirFirst
    rw [hfilter]
  refine ⟨(splitFiles vals).map mkEntry,
    (List.insertionSort lexRel (splitFiles vals)).map mkEntry, ?_, ?_, ?_, ?_, ?_, ?_, ?_, ?_⟩
  · unfold uploadEndpointFirst uploadEndpointWith
    rw [hcmd]
    simp only [hacc, if_true, if_pos hscript, hfilter, if_neg hfne, hfirst]
  · unfold uploadEndpointSecond uploadEndpointWith
    rw [hcmd]
    simp only [hacc, if_true, if_pos hscript, hfilter, if_neg hfne, hsecond]
  · rw [List.length_map, splitFiles, List.length_map]
  · rw [List.length_map, hperm.length_eq, splitFiles, List.length_map]
  · rw [List.map_map]
    exact hnodupb
  · rw [List.map_map]
    exact hnodups
  · intro e he
    obtain ⟨fl, hfl, rfl⟩ := List.mem_map.mp he
    exact hfn fl hfl
  · intro e he
    obtain ⟨fl, hfl, rfl⟩ := List.mem_map.mp he
    exact hfn fl (hperm.mem_iff.mp hfl)

/-- A server state with the runtime available and the splitting
script present, used by concrete runs of the upload endpoint. -/
def stOk : ServerState := ⟨some "python3".toList, [extractScriptPath]⟩

/-- A well-formed CSV file part, accepted by the multer filter. -/
def csvFile : FilePart := ⟨"text/csv".toList, "upload.csv".toList⟩

/-- Claim C1 (witness): the amended theorem applied to a CSV with the
two distinct instructor values Alice Smith and Bob against an
otherwise empty instructor-data directory. -/
theorem upload_counts_distinct_ids_witness :
    (fileFilterAccepts csvFile = true ∧ stOk.pythonCmd.isSome = true ∧
      extractScriptPath ∈ stOk.files ∧
      (["Alice Smith".toList, "Bob".toList] : List JSStr) ≠ [] ∧
      ∀ v ∈ ["Alice Smith".toList, "Bob".toList], ¬ suffixFC <:+: normSpaces v) ∧
    (∃ es1 es2,
      uploadEndpointFirst stOk (some csvFile)
          (.ok (splitFiles ["Alice Smith".toList, "Bob".toList])) = ⟨.ok es1, true⟩ ∧
      uploadEndpointSecond stOk (some csvFile)
          (.ok (splitFiles ["Alice Smith".toList, "Bob".toList])) = ⟨.ok es2, true⟩ ∧
      es1.length = (([ "Alice Smith".toList, "Bob".toList].map normSpaces).dedup).length ∧
      es2.length = (([ "Alice Smith".toList, "Bob".toList].map normSpaces).dedup).length ∧
      (es1.map InstructorEntry.id).Nodup ∧
      (es2.map InstructorEntry.id).Nodup ∧
      (∀ e ∈ es1, e.filename = e.id ++ suffixFC) ∧
      (∀ e ∈ es2, e.filename = e.id ++ suffixFC)) :=
  ⟨by decide, upload_counts_distinct_ids stOk csvFile _ (by decide) (by decide) (by decide)
    (by decide) (by decide)⟩

/-- Claim C1 (counterexample to the claim as stated): an uploaded CSV
with one distinct instructor value, run against a directory holding a
file left by an earlier upload, is answered with two entries instead
of one. -/
theorem upload_count_pre_existing_counterexample :
    (uploadEndpointFirst stOk (some csvFile)
        (.ok (dirAfterUpload ["Bob_feedback.csv".toList] ["Alice".toList]))).resp =
      .ok [mkEntry "Bob_feedback.csv".toList, mkEntry "Alice_feedback.csv".toList] ∧
    [mkEntry "Bob_feedback.csv".toList, mkEntry "Alice_feedback.csv".toList].length = 2 ∧
    ((["Alice".toList].map normSpaces).dedup).length = 1 := by decide

/-- A directory listing with two instructor files out of
lexicographic order. -/
def dirTwo : List JSStr := ["Zed_feedback.csv".toList, "Abe_feedback.csv".toList]

/-- A directory listing whose two distinct file names derive the same
base name (the fixed suffix occurs inside the names). -/
def dirDup : List JSStr :=
  ["_feedback.csvX_feedback.csv".toList, "X_feedback.csv_feedback.csv".toList]

/-- Deduplication by id with the first occurrence winning, written
after the words of the claim: later entries whose id is already
present are discarded.  This definition is independent of the
`Map`-based fold of the source and serves as the yardstick the
second upload registration is compared against. -/
def dedupByIdFirstWins : List InstructorEntry → List InstructorEntry
  | [] => []
  | e :: es => e :: dedupByIdFirstWins (es.filter fun x => !(x.id == e.id))
termination_by l => l.length
decreasing_by
  simp only [List.length_cons]
  exact Nat.lt_succ_of_le (List.length_filter_le _ _)

/-- The `Map`-based fold of the second upload registration computes
first-wins deduplication by id: an entry whose id is already present
in the accumulator is discarded, the rest are kept in order. -/
theorem foldl_insert_eq_dedupFirstWins :
    ∀ (l : List JSStr) (acc : List InstructorEntry),
      l.foldl insertInstructor acc =
        acc ++ dedupByIdFirstWins
          ((l.map mkEntry).filter fun e => !acc.any fun a => a.id == e.id) := by
  intro l
  induction l with
  | nil => intro acc; simp [dedupByIdFirstWins]
  | cons f l ih =>
    intro acc
    rw [List.foldl_cons]
    cases hmem : acc.any fun e => e.id == baseOf f with
    | true =>
      have hskip : insertInstructor acc f = acc := by
        simp [insertInstructor, hmem]
      have hdrop : ((f :: l).map mkEntry).filter (fun e => !acc.any fun a => a.id == e.id) =
          (l.map mkEntry).filter (fun e => !acc.any fun a => a.id == e.id) := by
        rw [List.map_cons, List.filter_cons]
        simp [mkEntry, hmem]
      rw [hskip, ih acc, hdrop]
    | false =>
      have hstep : insertInstructor acc f = acc ++ [mkEntry f] := by
        simp [insertInstructor, hmem]
      have hkeep : ((f :: l).map mkEntry).filter (fun e => !acc.any fun a => a.id == e.id) =
          mkEntry f :: (l.map mkEntry).filter (fun e => !acc.any fun a => a.id == e.id) := by
        rw [List.map_cons, List.filter_cons]
        simp [mkEntry, hmem]
      have hded : dedupByIdFirstWins (mkEntry f ::
          ((l.map mkEntry).filter fun e => !acc.any fun a => a.id == e.id)) =
          mkEntry f :: dedupByIdFirstWins
            (((l.map mkEntry).filter fun e => !acc.any fun a => a.id == e.id).filter
              fun x => !(x.id == (mkEntry f).id)) := by
        rw [dedupByIdFirstWins]
      rw [hstep, ih (acc ++ [mkEntry f]), hkeep, hded, List.append_assoc,
        List.singleton_append, List.filter_filter]
      congr 2
      apply congrArg dedupByIdFirstWins
      apply List.filter_congr
      intro e he
      simp only [List.any_append, List.any_cons, List.any_nil, Bool.or_false, Bool.not_or,
        mkEntry]
      rw [show (baseOf f == e.id) = (e.id == baseOf f) from Bool.beq_comm]
      exact Bool.and_comm _ _

/-- Claim C2 (amended): the upload registration Express dispatches to
(the first) maps the suffix-filtered listing to entries in raw
directory order, with no sorting and no deduplication; the second,
shadowed registration is the one that lists the suffix-matching
files, sorts them, derives the entries and deduplicates by id with
the first occurrence winning (stated against an independent
first-wins deduplication function). -/
theorem upload_dispatched_vs_claimed_pipeline (st : ServerState) (f : FilePart)
    (listing : List JSStr)
    (hacc : fileFilterAccepts f = true) (hpy : st.pythonCmd.isSome = true)
    (hscript : extractScriptPath ∈ st.files)
    (hne : listing.filter (fun g => suffixFC.isSuffixOf g) ≠ []) :
    uploadEndpointFirst st (some f) (.ok listing) =
      ⟨.ok ((listing.filter fun g => suffixFC.isSuffixOf g).map mkEntry), true⟩ ∧
    uploadEndpointSecond st (some f) (.ok listing) =
      ⟨.ok (dedupByIdFirstWins ((List.insertionSort lexRel
        (listing.filter fun g => suffixFC.isSuffixOf g)).map mkEntry)), true⟩ := by
  obtain ⟨c, hpc⟩ := Option.isSome_iff_exists.mp hpy
  constructor
  · simp [uploadEndpointFirst, uploadEndpointWith, hacc, hpc, hscript, hne,
      instructorsFromDirFirst]
  · have h2 : instructorsFromDirSecond listing =
        dedupByIdFirstWins ((List.insertionSort lexRel
          (listing.filter fun g => suffixFC.isSuffixOf g)).map mkEntry) := by
      unfold instructorsFromDirSecond
      rw [foldl_insert_eq_dedupFirstWins]
      simp
    simp [uploadEndpointSecond, uploadEndpointWith, hacc, hpc, hscript, hne, h2]

/-- Claim C2 (witness): the amended theorem applied to the
out-of-order two-file listing. -/
theorem upload_dispatched_vs_claimed_pipeline_witness :
    (fileFilterAccepts csvFile = true ∧ stOk.pythonCmd.isSome = true ∧
      extractScriptPath ∈ stOk.files ∧
      dirTwo.filter (fun g => suffixFC.isSuffixOf g) ≠ []) ∧
    (uploadEndpointFirst stOk (some csvFile) (.ok dirTwo) =
        ⟨.ok ((dirTwo.filter fun g => suffixFC.isSuffixOf g).map mkEntry), true⟩ ∧
      uploadEndpointSecond stOk (some csvFile) (.ok dirTwo) =
        ⟨.ok (dedupByIdFirstWins ((List.insertionSort lexRel
          (dirTwo.filter fun g => suffixFC.isSuffixOf g)).map mkEntry)), true⟩) :=
  ⟨by decide, upload_dispatched_vs_claimed_pipeline stOk csvFile dirTwo (by decide) (by decide)
    (by decide) (by decide)⟩

/-- Claim C2 (counterexample to the claim as stated): the upload
registration Express dispatches to does not sort and does not
deduplicate: on the listing [Zed, Abe] it returns the entries in raw
listing order, which is not the lexicographic order the claim
describes, and on two distinct files deriving the same id it returns
both entries. -/
theorem upload_dispatched_unsorted_undeduped_counterexample :
    (uploadEndpointFirst stOk (some csvFile) (.ok dirTwo)).resp =
      .ok [mkEntry "Zed_feedback.csv".toList, mkEntry "Abe_feedback.csv".toList] ∧
    ¬ lexRel "Zed_feedback.csv".toList "Abe_feedback.csv".toList ∧
    [mkEntry "Zed_feedback.csv".toList, mkEntry "Abe_feedback.csv".toList] ≠
      [mkEntry "Abe_feedback.csv".toList, mkEntry "Zed_feedback.csv".toList] ∧
    (uploadEndpointFirst stOk (some csvFile) (.ok dirDup)).resp =
      .ok [mkEntry "_feedback.csvX_feedback.csv".toList,
        mkEntry "X_feedback.csv_feedback.csv".toList] ∧
    (mkEntry "_feedback.csvX_feedback.csv".toList).id =
      (mkEntry "X_feedback.csv_feedback.csv".toList).id := by decide

/-- Claim C10: the instructor list is computed from the directory
contents, not from the uploaded CSV alone: the same CSV (one
instructor value, Alice) run against an empty directory and against a
directory holding a leftover file produces different lists, the
second including the leftover entry. -/
theorem upload_depends_on_pre_existing_files :
    uploadEndpointFirst stOk (some csvFile) (.ok (dirAfterUpload [] ["Alice".toList])) ≠
      uploadEndpointFirst stOk (some csvFile)
        (.ok (dirAfterUpload ["Zed_feedback.csv".toList] ["Alice".toList])) ∧
    (uploadEndpointFirst stOk (some csvFile)
        (.ok (dirAfterUpload ["Zed_feedback.csv".toList] ["Alice".toList]))).resp =
      .ok [mkEntry "Zed_feedback.csv".toList, mkEntry "Alice_feedback.csv".toList] ∧
    (uploadEndpointFirst stOk (some csvFile) (.ok (dirAfterUpload [] ["Alice".toList]))).resp =
      .ok [mkEntry "Alice_feedback.csv".toList] := by decide

/-- A server state in which the startup probe found no runtime. -/
def stNoPy : ServerState := ⟨none, []⟩

/-- Claim C5 (amended): whenever the joined filename does not name an
existing file, the analysis process is never spawned; and provided
the cached runtime command is present and the filename is nonempty,
the response is the 404 not-found answer. -/
theorem analyze_missing_file_404_no_spawn (st : ServerState) (fn : JSStr) (oc : ProcOutcome)
    (habs : pathJoin instructorDataDir fn ∉ st.files) :
    (analyzeInstructor st fn oc).spawnedOn = none ∧
    (fn ≠ [] → st.pythonCmd.isSome = true →
      (analyzeInstructor st fn oc).resp = .notFound ∧
      (analyzeInstructor st fn oc).resp.status = 404) := by
  constructor
  · by_cases hfn : fn = []
    · simp [analyzeInstructor, hfn]
    · cases hpc : st.pythonCmd with
      | none => simp [analyzeInstructor, hfn, hpc]
      | some c => simp [analyzeInstructor, hfn, hpc, habs]
  · intro hfn hpy
    obtain ⟨c, hpc⟩ := Option.isSome_iff_exists.mp hpy
    constructor <;> simp [analyzeInstructor, hfn, hpc, habs, AnalyzeResp.status]

/-- Claim C5 (witness): the amended theorem applied to a nonexistent
instructor file in an operational state. -/
theorem analyze_missing_file_404_no_spawn_witness :
    (pathJoin instructorDataDir "ghost_feedback.csv".toList ∉ stOk.files ∧
      "ghost_feedback.csv".toList ≠ ([] : JSStr) ∧ stOk.pythonCmd.isSome = true) ∧
    (analyzeInstructor stOk "ghost_feedback.csv".toList (.exit0 none)).spawnedOn = none ∧
    (analyzeInstructor stOk "ghost_feedback.csv".toList (.exit0 none)).resp = .notFound ∧
    (analyzeInstructor stOk "ghost_feedback.csv".toList (.exit0 none)).resp.status = 404 :=
  ⟨by decide,
    (analyze_missing_file_404_no_spawn stOk _ _ (by decide)).1,
    ((analyze_missing_file_404_no_spawn stOk _ _ (by decide)).2 (by decide) (by decide)).1,
    ((analyze_missing_file_404_no_spawn stOk _ _ (by decide)).2 (by decide) (by decide)).2⟩

/-- Claim C5 (counterexample to the claim as stated): with the cached
runtime command null, a request naming a nonexistent file is answered
500 (runtime unavailable), not 404. -/
theorem analyze_missing_file_python_null_counterexample :
    pathJoin instructorDataDir "ghost_feedback.csv".toList ∉ stNoPy.files ∧
    (analyzeInstructor stNoPy "ghost_feedback.csv".toList (.exit0 none)).resp.status = 500 ∧
    (analyzeInstructor stNoPy "ghost_feedback.csv".toList (.exit0 none)).resp ≠ .notFound := by
  decide

/-- An instructor file present on disk, with the analysis script also
present, used by concrete analyze-instructor runs. -/
def aliceFile : JSStr := "Alice_feedback.csv".toList

/-- A server state in which `aliceFile` exists under the
instructor-data directory and the analysis script is present. -/
def stAn : ServerState :=
  ⟨some "python3".toList, [analyzeScriptPath, pathJoin instructorDataDir aliceFile]⟩

/-- Claim C6 (amended): on exit code 0 with parseable JSON, a truthy
`error` field is relayed as a 400 client error carrying that value,
and otherwise — the field absent or falsy — the parsed object is
returned with the echoed filename as a 200 success. -/
theorem analyze_error_field_dispatch (st : ServerState) (fn : JSStr) (parsed : JsonObj)
    (hfn : fn ≠ []) (hpy : st.pythonCmd.isSome = true)
    (hfile : pathJoin instructorDataDir fn ∈ st.files)
    (hscript : analyzeScriptPath ∈ st.files) :
    (∀ v, lookupField parsed "error".toList = some v → jvalTruthy v = true →
      (analyzeInstructor st fn (.exit0 (some parsed))).resp = .clientError v ∧
      (analyzeInstructor st fn (.exit0 (some parsed))).resp.status = 400 ∧
      (analyzeInstructor st fn (.exit0 (some parsed))).resp.succ = false) ∧
    (truthyOpt (lookupField parsed "error".toList) = false →
      (analyzeInstructor st fn (.exit0 (some parsed))).resp = .ok parsed fn ∧
      (analyzeInstructor st fn (.exit0 (some parsed))).resp.status = 200 ∧
      (analyzeInstructor st fn (.exit0 (some parsed))).resp.succ = true) := by
  obtain ⟨c, hpc⟩ := Option.isSome_iff_exists.mp hpy
  have hred : analyzeInstructor st fn (.exit0 (some parsed)) =
      ⟨processOutcome (.exit0 (some parsed)) fn, some (pathJoin instructorDataDir fn)⟩ := by
    simp [analyzeInstructor, hfn, hpc, hfile, hscript]
  rw [hred]
  constructor
  · intro v hv htr
    have hpo : processOutcome (.exit0 (some parsed)) fn = .clientError v := by
      simp only [processOutcome]
      rw [hv]
      simp [htr]
    simp [hpo, AnalyzeResp.status, AnalyzeResp.succ]
  · intro hfalsy
    have hpo : processOutcome (.exit0 (some parsed)) fn = .ok parsed fn := by
      simp only [processOutcome]
      cases hl : lookupField parsed "error".toList with
      | none => simp
      | some v =>
        rw [hl] at hfalsy
        simp only [truthyOpt] at hfalsy
        simp [hfalsy]
    simp [hpo, AnalyzeResp.status, AnalyzeResp.succ]

/-- Claim C6 (witness): the amended theorem applied to an output
carrying a truthy error field, and to an output with no error
field. -/
theorem analyze_error_field_dispatch_witness :
    (aliceFile ≠ ([] : JSStr) ∧ stAn.pythonCmd.isSome = true ∧
      pathJoin instructorDataDir aliceFile ∈ stAn.files ∧ analyzeScriptPath ∈ stAn.files ∧
      lookupField [("error".toList, JVal.vstr "boom".toList)] "error".toList =
        some (JVal.vstr "boom".toList) ∧
      jvalTruthy (JVal.vstr "boom".toList) = true ∧
      truthyOpt (lookupField [("ok".toList, JVal.vbool true)] "error".toList) = false) ∧
    (analyzeInstructor stAn aliceFile
        (.exit0 (some [("error".toList, JVal.vstr "boom".toList)]))).resp =
      .clientError (JVal.vstr "boom".toList) ∧
    (analyzeInstructor stAn aliceFile
        (.exit0 (some [("ok".toList, JVal.vbool true)]))).resp =
      .ok [("ok".toList, JVal.vbool true)] aliceFile :=
  ⟨by decide,
    ((analyze_error_field_dispatch stAn aliceFile _ (by decide) (by decide) (by decide)
        (by decide)).1 _ (by decide) (by decide)).1,
    ((analyze_error_field_dispatch stAn aliceFile _ (by decide) (by decide) (by decide)
        (by decide)).2 (by decide)).1⟩

/-- Claim C6 (counterexample to the claim as stated): an output whose
JSON object carries an `error` field holding the empty string — a
field that is present but falsy — is not relayed as a 400; the
endpoint answers 200 success with the object passed through. -/
theorem analyze_falsy_error_field_counterexample :
    lookupField [("error".toList, JVal.vstr [])] "error".toList = some (JVal.vstr []) ∧
    (analyzeInstructor stAn aliceFile (.exit0 (some [("error".toList, JVal.vstr [])]))).resp =
      .ok [("error".toList, JVal.vstr [])] aliceFile ∧
    (analyzeInstructor stAn aliceFile
        (.exit0 (some [("error".toList, JVal.vstr [])]))).resp.status = 200 := by
  decide

/-- Claim C8: with the cached runtime command null, the health
endpoint reports unavailability, and the upload endpoint (either
registration, on a request carrying an accepted file) and the
analyze-instructor endpoint (on a request carrying a filename) both
answer 500 with the same unavailability error message. -/
theorem python_unavailable_consistent (st : ServerState) (f : FilePart) (fn : JSStr)
    (split : SplitOutcome) (oc : ProcOutcome) (pc : Int) (po : JSStr)
    (hpy : st.pythonCmd = none) (hacc : fileFilterAccepts f = true) (hfn : fn ≠ []) :
    (healthCheck st pc po).python_available = false ∧
    uploadEndpointFirst st (some f) split = ⟨.pythonMissing, false⟩ ∧
    uploadEndpointSecond st (some f) split = ⟨.pythonMissing, false⟩ ∧
    (analyzeInstructor st fn oc).resp = .pythonMissing ∧
    UploadResp.pythonMissing.status = 500 ∧
    AnalyzeResp.pythonMissing.status = 500 ∧
    UploadResp.pythonMissing.errMsg = some "Python is not installed or not found in PATH.".toList ∧
    AnalyzeResp.pythonMissing.errMsg = some "Python is not installed or not found in PATH.".toList := by
  refine ⟨?_, ?_, ?_, ?_, rfl, rfl, rfl, rfl⟩
  · simp [healthCheck, hpy]
  · simp [uploadEndpointFirst, uploadEndpointWith, hpy, hacc]
  · simp [uploadEndpointSecond, uploadEndpointWith, hpy, hacc]
  · simp [analyzeInstructor, hpy, hfn]

/-- Claim C8 (witness): the theorem applied to the probe-failed state
with a well-formed upload and a well-formed analyze request. -/
theorem python_unavailable_consistent_witness :
    (stNoPy.pythonCmd = none ∧ fileFilterAccepts csvFile = true ∧ aliceFile ≠ ([] : JSStr)) ∧
    ((healthCheck stNoPy 0 []).python_available = false ∧
      uploadEndpointFirst stNoPy (some csvFile) (.ok []) = ⟨.pythonMissing, false⟩ ∧
      uploadEndpointSecond stNoPy (some csvFile) (.ok []) = ⟨.pythonMissing, false⟩ ∧
      (analyzeInstructor stNoPy aliceFile (.exit0 none)).resp = .pythonMissing ∧
      UploadResp.pythonMissing.status = 500 ∧
      AnalyzeResp.pythonMissing.status = 500 ∧
      UploadResp.pythonMissing.errMsg =
        some "Python is not installed or not found in PATH.".toList ∧
      AnalyzeResp.pythonMissing.errMsg =
        some "Python is not installed or not found in PATH.".toList) :=
  ⟨by decide, python_unavailable_consistent stNoPy csvFile aliceFile (.ok []) (.exit0 none) 0 []
    rfl (by decide) (by decide)⟩

/-- The path outside the instructor-data directory reached by a
traversal filename. -/
def evilPath : List JSStr := serverDir ++ ["uploads".toList, "x.csv".toList]

/-- A server state in which a file exists at the traversal target and
the analysis script is present. -/
def stTraversal : ServerState := ⟨some "python3".toList, [analyzeScriptPath, evilPath]⟩

/-- Claim C9: the analyze-instructor handler never confines the
joined path to the instructor-data directory: the filename
`../uploads/x.csv` contains a parent segment, joins to a path outside
the directory, and when a file exists there the handler proceeds to
spawn the analysis process on that path. -/
theorem analyze_path_traversal :
    containsSub "..".toList "../uploads/x.csv".toList = true ∧
    pathJoin instructorDataDir "../uploads/x.csv".toList = evilPath ∧
    instructorDataDir.isPrefixOf (pathJoin instructorDataDir "../uploads/x.csv".toList) = false ∧
    (analyzeInstructor stTraversal "../uploads/x.csv".toList (.exit0 (some []))).spawnedOn =
      some evilPath ∧
    (analyzeInstructor stTraversal "../uploads/x.csv".toList (.exit0 (some []))).resp =
      .ok [] "../uploads/x.csv".toList := by
  decide

/-- A file part that is neither CSV-typed nor CSV-named. -/
def pdfFile : FilePart := ⟨"application/pdf".toList, "report.pdf".toList⟩

/-- Claim C7 (amended): a file whose MIME type is not `text/csv` and
whose name's extension is not `.csv` is rejected before the splitting
process is invoked — but through the error middleware with status
500, because the filter error is not a `MulterError`. -/
theorem upload_wrong_type_rejected_before_split (st : ServerState) (f : FilePart)
    (split : SplitOutcome)
    (hm : f.mimetype ≠ "text/csv".toList) (he : extname f.originalname ≠ ".csv".toList) :
    uploadEndpointFirst st (some f) split = ⟨.typeRejected, false⟩ ∧
    uploadEndpointSecond st (some f) split = ⟨.typeRejected, false⟩ ∧
    UploadResp.typeRejected.status = 500 ∧
    UploadResp.typeRejected.errMsg = some "Only CSV files are allowed!".toList := by
  have hacc : fileFilterAccepts f = false := by
    unfold fileFilterAccepts
    rw [Bool.or_eq_false_iff]
    exact ⟨beq_eq_false_iff_ne.mpr hm, beq_eq_false_iff_ne.mpr he⟩
  refine ⟨?_, ?_, rfl, rfl⟩ <;>
    simp [uploadEndpointFirst, uploadEndpointSecond, uploadEndpointWith, hacc]

/-- Claim C7 (witness): the amended theorem applied to a PDF file. -/
theorem upload_wrong_type_rejected_before_split_witness :
    (pdfFile.mimetype ≠ "text/csv".toList ∧ extname pdfFile.originalname ≠ ".csv".toList) ∧
    (uploadEndpointFirst stOk (some pdfFile) (.ok []) = ⟨.typeRejected, false⟩ ∧
      uploadEndpointSecond stOk (some pdfFile) (.ok []) = ⟨.typeRejected, false⟩ ∧
      UploadResp.typeRejected.status = 500 ∧
      UploadResp.typeRejected.errMsg = some "Only CSV files are allowed!".toList) :=
  ⟨by decide,
    upload_wrong_type_rejected_before_split stOk pdfFile (.ok []) (by decide) (by decide)⟩

/-- Claim C7 (counterexample to the claim as stated): the rejection
carries status 500, which is not a client (4xx) error, although the
splitter is indeed never invoked. -/
theorem upload_wrong_type_not_client_error_counterexample :
    (uploadEndpointFirst stOk (some pdfFile) (.ok [])).resp.status = 500 ∧
    ¬ ((uploadEndpointFirst stOk (some pdfFile) (.ok [])).resp.status < 500) ∧
    (uploadEndpointFirst stOk (some pdfFile) (.ok [])).splitterInvoked = false := by
  decide

deriving instance DecidableEq for Except

/-- Whether a handler's run completed without throwing. -/
def completesOk {α : Type} : Except JsError α → Bool
  | .ok _ => true
  | .error _ => false

/-- The text content of a successful CSV download, empty otherwise. -/
def csvContentOf : Except JsError CsvResp → JSStr
  | .ok (.file c) => c
  | _ => []

/-- An analysis-data object carrying an empty summary object and no
row list. -/
def emptyData : AnalysisData := ⟨some emptySummary, none⟩

/-- An analysis-data object carrying an empty summary object and an
empty row list. -/
def emptyCsvData : AnalysisData := ⟨some emptySummary, some []⟩

/-- Claim C4 (counterexample to the claim as stated): download-report
given an empty summary object throws a TypeError (iterating the
absent `top_praise_areas`), instead of completing with zero and empty
defaults. -/
theorem download_report_empty_summary_counterexample :
    downloadReport (some emptyData) none "now".toList =
      .error (.typeError "top_praise_areas of undefined".toList) := by
  decide

/-- Claim C4 (amended): download-report completes only when the
summary object is absent altogether (rendering no summary fields at
all); download-csv with an empty summary object and an empty row list
completes without throwing but renders the absent numeric fields as
the text `undefined`, not as zero, and a body without `data` or
without a row list is answered 400 without throwing. -/
theorem download_empty_summary_behavior :
    completesOk (downloadReport none none "now".toList) = true ∧
    completesOk (downloadReport (some emptyData) none "now".toList) = false ∧
    downloadCsv none = .ok .badRequest ∧
    downloadCsv (some emptyData) = .ok .badRequest ∧
    completesOk (downloadCsv (some emptyCsvData)) = true ∧
    containsSub "Total Responses,undefined".toList
      (csvContentOf (downloadCsv (some emptyCsvData))) = true ∧
    containsSub "Total Responses,0".toList
      (csvContentOf (downloadCsv (some emptyCsvData))) = false ∧
    downloadCsv (some ⟨none, some []⟩) =
      .error (.typeError "total_responses of undefined".toList) := by
  decide

/-- A chat request with a message, a history, and analysis data
carrying an empty summary. -/
def chatReqHello : ChatReq := ⟨some "hello".toList, some emptyData, none, some []⟩

/-- Claim C3: on a failing LLM call the chat handler does not return
a canned response — the catch block throws a ReferenceError, because
the `summary` it reads is block-scoped to the try block.  The
intended catch block (with `summary` visible) does answer 200 with a
canned response, and the fallback text is always one of the five
keyword-selected templates built from the summary fields. -/
theorem chat_fallback_reference_error :
    chatEndpoint chatReqHello .netError = .error (.referenceError "summary".toList) ∧
    chatEndpoint chatReqHello .noContent = .error (.referenceError "summary".toList) ∧
    ¬ ("summary".toList ∈ chatCatchScope) ∧
    chatEndpointIntended chatReqHello .netError =
      .ok ⟨200, true, chatFallbackText emptySummary "hello".toList⟩ ∧
    chatFallbackText emptySummary "hello".toList = fbDefault emptySummary ∧
    ∀ (s : Summary) (msg : JSStr),
      chatFallbackText s msg ∈ [fbTeaching s, fbImprovement s, fbPositive s, fbRating s, fbDefault s] := by
  refine ⟨by decide, by decide, by decide, by rfl, by rfl, ?_⟩
  intro s msg
  simp only [chatFallbackText]
  split
  · simp
  · split
    · simp
    · split
      · simp
      · split <;> simp
